import Mathlib

/-!
Verification of the data-generation script `demo.py` against its
specification.

The script builds five synthetic software-defect datasets with numpy and
pandas.  The embedding models:

* numpy's global pseudo-random state as a pair (current seed, number of
  variates drawn since seeding); the Mersenne-Twister core itself is kept
  abstract as a deterministic stream (`NumpyRNG`), so every theorem below
  quantifies over it and therefore holds for the actual generator;
* float arithmetic (the complexity score, the logistic probability, column
  means) over `ℝ`;
* a `pandas.DataFrame` as its row count together with the list of named
  columns in insertion order, each column a function from row index to `ℕ`
  (all generated values are integers).
-/

namespace Demo

/-- Row count of every generated dataset: `n_samples = 1000` (demo.py line 18). -/
def n_samples : ℕ := 1000

/-- The fixed seed installed by `np.random.seed(42)` (demo.py line 15). -/
def seedConst : ℕ := 42

/-- Numpy's global pseudo-random state: the seed last installed and the
number of variates drawn since seeding. -/
structure RandomState where
  seed : ℕ
  pos : ℕ

/-- The effect of `np.random.seed n` on the global state. -/
def np_seed (n : ℕ) : RandomState := ⟨n, 0⟩

/-- Abstraction of the pseudo-random core.  `ints s k` is the raw value
backing the `k`-th variate drawn after seeding with `s` (used by `randint`,
reduced into the requested range); `unif s k` is the uniform real variate
consumed by the Bernoulli draw of `binomial`.  Both are fixed deterministic
functions, as the Mersenne Twister is once the seed is fixed. -/
structure NumpyRNG where
  ints : ℕ → ℕ → ℕ
  unif : ℕ → ℕ → ℝ

/-- Model of a `pandas.DataFrame`: the row count and the named columns in
insertion order. -/
structure DataFrame where
  nrows : ℕ
  cols : List (String × (Fin nrows → ℕ))

/-- Column access `df[name]`: the first column called `name` (the generated
frames have pairwise distinct column names; a missing name yields the zero
column, a case the script never reaches). -/
def getCol (df : DataFrame) (name : String) : Fin df.nrows → ℕ :=
  ((df.cols.find? (fun c => c.1 == name)).map Prod.snd).getD (fun _ => 0)

/-- The float mean `df[name].mean()`, modelled over `ℝ`. -/
noncomputable def colMean (df : DataFrame) (name : String) : ℝ :=
  (∑ r : Fin df.nrows, (getCol df name r : ℝ)) / df.nrows

/-- `np.random.randint(lo, hi, n_samples)`: a vector of `n_samples` integers,
each in `[lo, hi)`, drawn from the global state `s`; the state advances by
`n_samples` positions.  Entry `r` is the raw draw at position `s.pos + r`
reduced into the range. -/
def randint (rng : NumpyRNG) (lo hi : ℕ) (s : RandomState) :
    (Fin n_samples → ℕ) × RandomState :=
  (fun r => lo + rng.ints s.seed (s.pos + r) % (hi - lo),
   ⟨s.seed, s.pos + n_samples⟩)

/-- `np.random.binomial(1, p, n_samples)`: a vector of Bernoulli draws —
entry `r` is `1` exactly when the uniform variate at position `s.pos + r`
falls below the probability `p r`. -/
noncomputable def binomial1 (rng : NumpyRNG) (p : Fin n_samples → ℝ)
    (s : RandomState) : (Fin n_samples → ℕ) × RandomState :=
  (fun r => if rng.unif s.seed (s.pos + r) < p r then 1 else 0,
   ⟨s.seed, s.pos + n_samples⟩)

/-- The composite complexity score of demo.py lines 46–51, with the four
contributing columns in the order the sum lists them:
`v_g/50 + ev_g/100 + d/100 + loc/10000`. -/
noncomputable def complexity_score (vg evg dd lc : ℕ) : ℝ :=
  (vg : ℝ) / 50 + (evg : ℝ) / 100 + (dd : ℝ) / 100 + (lc : ℝ) / 10000

/-- The per-row defect probability of demo.py line 54: the logistic function
of the score, centred at `0.5` with steepness `2`. -/
noncomputable def defect_prob (sc : ℝ) : ℝ :=
  1 / (1 + Real.exp (-2 * (sc - 0.5)))

/-- `create_sample_data` (demo.py lines 13–57).  `np.random.seed(42)`
replaces the incoming global state `_g`, the twenty feature columns are
drawn in the dict's insertion order, the label column is a Bernoulli draw
at the logistic of the composite score, and the frame is returned together
with the advanced global state. -/
noncomputable def create_sample_data (rng : NumpyRNG) (_g : RandomState) :
    DataFrame × RandomState :=
  let s0 := np_seed 42
  let loc := randint rng 10 10000 s0
  let v_g := randint rng 1 50 loc.2
  let ev_g := randint rng 1 100 v_g.2
  let iv_g := randint rng 1 30 ev_g.2
  let n := randint rng 5 500 iv_g.2
  let v := randint rng 10 2000 n.2
  let d := randint rng 1 100 v.2
  let i := randint rng 1 50 d.2
  let e := randint rng 50 50000 i.2
  let b := randint rng 1 1000 e.2
  let t := randint rng 1 3000 b.2
  let lOCode := randint rng 5 8000 t.2
  let lOComment := randint rng 0 2000 lOCode.2
  let lOBlank := randint rng 0 1000 lOComment.2
  let lOCodeAndComment := randint rng 0 100 lOBlank.2
  let uniq_Op := randint rng 1 50 lOCodeAndComment.2
  let uniq_Opnd := randint rng 1 100 uniq_Op.2
  let total_Op := randint rng 10 1000 uniq_Opnd.2
  let total_Opnd := randint rng 10 2000 total_Op.2
  let branchCount := randint rng 0 200 total_Opnd.2
  let score : Fin n_samples → ℝ := fun r =>
    complexity_score (v_g.1 r) (ev_g.1 r) (d.1 r) (loc.1 r)
  let prob : Fin n_samples → ℝ := fun r => defect_prob (score r)
  let defects := binomial1 rng prob branchCount.2
  (⟨n_samples,
    [("loc", loc.1), ("v_g", v_g.1), ("ev_g", ev_g.1), ("iv_g", iv_g.1),
     ("n", n.1), ("v", v.1), ("d", d.1), ("i", i.1), ("e", e.1), ("b", b.1),
     ("t", t.1), ("lOCode", lOCode.1), ("lOComment", lOComment.1),
     ("lOBlank", lOBlank.1), ("lOCodeAndComment", lOCodeAndComment.1),
     ("uniq_Op", uniq_Op.1), ("uniq_Opnd", uniq_Opnd.1),
     ("total_Op", total_Op.1), ("total_Opnd", total_Opnd.1),
     ("branchCount", branchCount.1), ("defects", defects.1)]⟩,
   defects.2)

/-- The global state at which the `k`-th vector draw of `create_sample_data`
begins: seed 42, with `k · n_samples` variates already consumed. -/
def drawState (k : ℕ) : RandomState := ⟨seedConst, k * n_samples⟩

/-- The `loc` column of a generated frame (draw 0). -/
def loc_col (rng : NumpyRNG) : Fin n_samples → ℕ :=
  (randint rng 10 10000 (drawState 0)).1

/-- The `v_g` column of a generated frame (draw 1). -/
def v_g_col (rng : NumpyRNG) : Fin n_samples → ℕ :=
  (randint rng 1 50 (drawState 1)).1

/-- The `ev_g` column of a generated frame (draw 2). -/
def ev_g_col (rng : NumpyRNG) : Fin n_samples → ℕ :=
  (randint rng 1 100 (drawState 2)).1

/-- The `d` column of a generated frame (draw 6). -/
def d_col (rng : NumpyRNG) : Fin n_samples → ℕ :=
  (randint rng 1 100 (drawState 6)).1

/-- The defect probability of row `r` of a generated frame, as the script
computes it from the four contributing columns. -/
noncomputable def defect_prob_at (rng : NumpyRNG) (r : Fin n_samples) : ℝ :=
  defect_prob (complexity_score (v_g_col rng r) (ev_g_col rng r)
    (d_col rng r) (loc_col rng r))

/-- The `defects` column of a generated frame (draw 20). -/
noncomputable def defects_col (rng : NumpyRNG) : Fin n_samples → ℕ :=
  (binomial1 rng (fun r => defect_prob_at rng r) (drawState 20)).1

/-- The twenty feature columns of a generated frame, in insertion order. -/
def featureCols (rng : NumpyRNG) : List (String × (Fin n_samples → ℕ)) :=
  [("loc", loc_col rng), ("v_g", v_g_col rng), ("ev_g", ev_g_col rng),
   ("iv_g", (randint rng 1 30 (drawState 3)).1),
   ("n", (randint rng 5 500 (drawState 4)).1),
   ("v", (randint rng 10 2000 (drawState 5)).1),
   ("d", d_col rng),
   ("i", (randint rng 1 50 (drawState 7)).1),
   ("e", (randint rng 50 50000 (drawState 8)).1),
   ("b", (randint rng 1 1000 (drawState 9)).1),
   ("t", (randint rng 1 3000 (drawState 10)).1),
   ("lOCode", (randint rng 5 8000 (drawState 11)).1),
   ("lOComment", (randint rng 0 2000 (drawState 12)).1),
   ("lOBlank", (randint rng 0 1000 (drawState 13)).1),
   ("lOCodeAndComment", (randint rng 0 100 (drawState 14)).1),
   ("uniq_Op", (randint rng 1 50 (drawState 15)).1),
   ("uniq_Opnd", (randint rng 1 100 (drawState 16)).1),
   ("total_Op", (randint rng 10 1000 (drawState 17)).1),
   ("total_Opnd", (randint rng 10 2000 (drawState 18)).1),
   ("branchCount", (randint rng 0 200 (drawState 19)).1)]

/-- The spec's column range table (§4.1): name, inclusive minimum, exclusive
maximum, transcribed from the specification's words. -/
def specFeatureRanges : List (String × ℕ × ℕ) :=
  [("loc", 10, 10000), ("v_g", 1, 50), ("ev_g", 1, 100), ("iv_g", 1, 30),
   ("n", 5, 500), ("v", 10, 2000), ("d", 1, 100), ("i", 1, 50),
   ("e", 50, 50000), ("b", 1, 1000), ("t", 1, 3000), ("lOCode", 5, 8000),
   ("lOComment", 0, 2000), ("lOBlank", 0, 1000), ("lOCodeAndComment", 0, 100),
   ("uniq_Op", 1, 50), ("uniq_Opnd", 1, 100), ("total_Op", 10, 1000),
   ("total_Opnd", 10, 2000), ("branchCount", 0, 200)]

/-- One entry of the metadata `files` array (demo.py lines 103–112).  The
`data_types` field of the script — pandas dtype strings — is not modelled;
no claim mentions it. -/
structure FileInfo where
  filename : String
  rows : ℕ
  columns : ℕ
  column_names : List String
  missing_values : List (String × ℕ)
  defect_rate : String
  description : String

/-- `pandas.isnull` on one entry of an integer column: int64 data holds no
NaN/None, so the test is false on every value the generator produces. -/
def isnull (_v : ℕ) : Bool := false

/-- `df[c].isnull().sum()`: the number of null entries of a column. -/
def missingCount {n : ℕ} (c : Fin n → ℕ) : ℕ :=
  (List.ofFn (fun r => c r)).countP (fun x => isnull x)

/-- Python's `f"{x:.2%}"` for the non-negative means at hand: `x · 100`
rendered with two decimal places and a percent sign. -/
noncomputable def format_pct2 (x : ℝ) : String :=
  let c : ℤ := round (x * 100 * 100)
  toString (c / 100) ++ "." ++ (if c % 100 < 10 then "0" else "") ++
    toString (c % 100) ++ "%"

/-- The `file_info` record built for one dataset (demo.py lines 103–112). -/
noncomputable def mkFileInfo (name : String) (df : DataFrame) : FileInfo where
  filename := name ++ ".csv"
  rows := df.nrows
  columns := df.cols.length
  column_names := df.cols.map Prod.fst
  missing_values := df.cols.map (fun c => (c.1, missingCount c.2))
  defect_rate := format_pct2 (colMean df "defects")
  description := "Sample NASA " ++ name.toUpper ++ " dataset with " ++
    toString df.nrows ++ " samples"

/-- The dict `datasets` (demo.py lines 78–84): five sequential generator
calls threading the global numpy state, keys in insertion order. -/
noncomputable def datasets (rng : NumpyRNG) (g : RandomState) :
    List (String × DataFrame) :=
  let kc1 := create_sample_data rng g
  let kc2 := create_sample_data rng kc1.2
  let pc1 := create_sample_data rng kc2.2
  let pc2 := create_sample_data rng pc1.2
  let cm1 := create_sample_data rng pc2.2
  [("kc1", kc1.1), ("kc2", kc2.1), ("pc1", pc1.1), ("pc2", pc2.1),
   ("cm1", cm1.1)]

/-- The metadata document `metadata_info` (demo.py lines 95–113). -/
structure MetadataInfo where
  dataset_name : String
  source : String
  description : String
  files : List FileInfo

/-- The metadata document as the script fills it (demo.py lines 95–113). -/
noncomputable def metadata_info (rng : NumpyRNG) (g : RandomState) :
    MetadataInfo where
  dataset_name := "NASA Software Defect Prediction (Demo Data)"
  source := "Generated sample data for demonstration"
  description := "Sample NASA-style software defect prediction datasets"
  files := (datasets rng g).map (fun p => mkFileInfo p.1 p.2)

/-- `total_samples` of the summary block (demo.py line 125): the sum of the
row counts of all datasets. -/
noncomputable def total_samples (rng : NumpyRNG) (g : RandomState) : ℕ :=
  ((datasets rng g).map (fun p => p.2.nrows)).sum

/-- `avg_defect_rate` of the summary block (demo.py line 126): `np.mean` of
the list of per-dataset label means, i.e. their sum over their number. -/
noncomputable def avg_defect_rate (rng : NumpyRNG) (g : RandomState) : ℝ :=
  (((datasets rng g).map (fun p => colMean p.2 "defects")).sum) /
    (((datasets rng g).map (fun p => colMean p.2 "defects")).length)

/-- A concrete instantiation of the abstract pseudo-random core: every raw
draw is 0 and every uniform variate is 0.  Used to instantiate theorems at
a concrete input. -/
noncomputable def rngZero : NumpyRNG := ⟨fun _ _ => 0, fun _ _ => 0⟩

/-- Like `rngZero`, but the raw draws at positions 3000–3999 — the ones
feeding the `iv_g` column — are 5 instead of 0, so the generated frame
differs from `rngZero`'s exactly in a column that does not contribute to
the defect probability. -/
noncomputable def rngAltIv : NumpyRNG :=
  ⟨fun _ p => if 3000 ≤ p ∧ p < 4000 then 5 else 0, fun _ _ => 0⟩

/-- Like `rngZero`, but the raw draws at positions 1000–1999 — the ones
feeding the `v_g` column — are 5 instead of 0, so the generated frame has a
strictly larger cyclomatic complexity everywhere and the same other
columns. -/
noncomputable def rngAltVg : NumpyRNG :=
  ⟨fun _ p => if 1000 ≤ p ∧ p < 2000 then 5 else 0, fun _ _ => 0⟩

/-- Row index 0, used to instantiate theorems at a concrete input. -/
def row0 : Fin n_samples := ⟨0, by norm_num [n_samples]⟩

end Demo

namespace Demo

theorem create_sample_data_cols (rng : NumpyRNG) (g : RandomState) :
    (create_sample_data rng g).1.cols =
      featureCols rng ++ [("defects", defects_col rng)] := rfl

theorem getCol_loc (rng : NumpyRNG) (g : RandomState) :
    getCol (create_sample_data rng g).1 "loc" = loc_col rng := rfl

theorem getCol_defects (rng : NumpyRNG) (g : RandomState) :
    getCol (create_sample_data rng g).1 "defects" = defects_col rng := rfl

/-- Both bounds of one `randint` draw. -/
theorem randint_val_bound (rng : NumpyRNG) (lo hi : ℕ) (s : RandomState)
    (h : lo < hi) : ∀ r, lo ≤ (randint rng lo hi s).1 r ∧
      (randint rng lo hi s).1 r < hi := by
  intro r
  have hm : rng.ints s.seed (s.pos + r) % (hi - lo) < hi - lo :=
    Nat.mod_lt _ (by omega)
  unfold randint
  dsimp only
  omega

/-- No column of any generated frame has a null entry. -/
theorem missingCount_eq_zero {n : ℕ} (c : Fin n → ℕ) : missingCount c = 0 := by
  simp [missingCount, isnull, List.countP_eq_zero]

/-- The per-file list of missing-value counts is all zeros, one per column. -/
theorem mkFileInfo_missing_map (name : String) (df : DataFrame) :
    (mkFileInfo name df).missing_values.map Prod.snd =
      List.replicate df.cols.length 0 := by
  simp only [mkFileInfo, List.map_map]
  have he : ((fun p : String × ℕ => p.2) ∘
      fun c : String × (Fin df.nrows → ℕ) => (c.1, missingCount c.2)) =
      fun c : String × (Fin df.nrows → ℕ) => missingCount c.2 := rfl
  rw [he]
  simp [missingCount_eq_zero, List.map_const']

/-- The logistic transform of the script is strictly increasing. -/
theorem defect_prob_lt_defect_prob {s1 s2 : ℝ} (h : s1 < s2) :
    defect_prob s1 < defect_prob s2 := by
  unfold defect_prob
  have he : Real.exp (-2 * (s2 - 0.5)) < Real.exp (-2 * (s1 - 0.5)) :=
    Real.exp_lt_exp.mpr (by linarith)
  have h2 : 0 < 1 + Real.exp (-2 * (s2 - 0.5)) := by positivity
  exact one_div_lt_one_div_of_lt h2 (by linarith)

/-- The composite score grows strictly when no contributing feature shrinks
and at least one grows. -/
theorem complexity_score_strict (vg vg' evg evg' dd dd' lc lc' : ℕ)
    (h1 : vg ≤ vg') (h2 : evg ≤ evg') (h3 : dd ≤ dd') (h4 : lc ≤ lc')
    (h5 : vg < vg' ∨ evg < evg' ∨ dd < dd' ∨ lc < lc') :
    complexity_score vg evg dd lc < complexity_score vg' evg' dd' lc' := by
  unfold complexity_score
  have c1 : (vg : ℝ) ≤ vg' := Nat.cast_le.mpr h1
  have c2 : (evg : ℝ) ≤ evg' := Nat.cast_le.mpr h2
  have c3 : (dd : ℝ) ≤ dd' := Nat.cast_le.mpr h3
  have c4 : (lc : ℝ) ≤ lc' := Nat.cast_le.mpr h4
  rcases h5 with h | h | h | h
  · have : (vg : ℝ) < vg' := Nat.cast_lt.mpr h
    linarith
  · have : (evg : ℝ) < evg' := Nat.cast_lt.mpr h
    linarith
  · have : (dd : ℝ) < dd' := Nat.cast_lt.mpr h
    linarith
  · have : (lc : ℝ) < lc' := Nat.cast_lt.mpr h
    linarith

theorem create_nrows (rng : NumpyRNG) (g : RandomState) :
    (create_sample_data rng g).1.nrows = 1000 := rfl

theorem datasets_length (rng : NumpyRNG) (g : RandomState) :
    (datasets rng g).length = 5 := rfl

/-- C1: in every row of a generated frame, the defect label is the Bernoulli
draw (uniform variate below the probability) at the probability
`1/(1 + exp(-2·(score - 0.5)))`, where the score is
`v_g/50 + ev_g/100 + d/100 + loc/10000` computed from that row's own
columns. -/
theorem defect_label_derivation (rng : NumpyRNG) (g : RandomState)
    (r : Fin n_samples) :
    getCol (create_sample_data rng g).1 "defects" r =
      (if rng.unif seedConst (20 * n_samples + r) <
          1 / (1 + Real.exp (-2 *
            ((getCol (create_sample_data rng g).1 "v_g" r : ℝ) / 50 +
             (getCol (create_sample_data rng g).1 "ev_g" r : ℝ) / 100 +
             (getCol (create_sample_data rng g).1 "d" r : ℝ) / 100 +
             (getCol (create_sample_data rng g).1 "loc" r : ℝ) / 10000 - 0.5)))
        then 1 else 0) := rfl

/-- C2: the generator re-seeds with the fixed constant 42 before every
generation, so its output frame is independent of the incoming global
state; consequently the five datasets of one run are all equal to that one
frame, and two runs produce identical dataset lists. -/
theorem generator_deterministic (rng : NumpyRNG) (g g' : RandomState) :
    (create_sample_data rng g).1 = (create_sample_data rng g').1 ∧
    (datasets rng g).map Prod.snd =
      List.replicate 5 ((create_sample_data rng g).1) ∧
    datasets rng g = datasets rng g' :=
  ⟨rfl, rfl, rfl⟩

/-- C3: the columns of a generated frame are the twenty feature columns
followed by the label, and each feature column's values all lie inside the
documented half-open range of the spec's table. -/
theorem feature_ranges (rng : NumpyRNG) (g : RandomState) :
    (create_sample_data rng g).1.cols =
      featureCols rng ++ [("defects", defects_col rng)] ∧
    List.Forall₂
      (fun (c : String × (Fin n_samples → ℕ)) (rg : String × ℕ × ℕ) =>
        c.1 = rg.1 ∧ ∀ r, rg.2.1 ≤ c.2 r ∧ c.2 r < rg.2.2)
      (featureCols rng) specFeatureRanges := by
  refine ⟨rfl, ?_⟩
  unfold featureCols specFeatureRanges
  refine .cons ⟨rfl, randint_val_bound rng 10 10000 (drawState 0) (by norm_num)⟩ ?_
  refine .cons ⟨rfl, randint_val_bound rng 1 50 (drawState 1) (by norm_num)⟩ ?_
  refine .cons ⟨rfl, randint_val_bound rng 1 100 (drawState 2) (by norm_num)⟩ ?_
  refine .cons ⟨rfl, randint_val_bound rng 1 30 (drawState 3) (by norm_num)⟩ ?_
  refine .cons ⟨rfl, randint_val_bound rng 5 500 (drawState 4) (by norm_num)⟩ ?_
  refine .cons ⟨rfl, randint_val_bound rng 10 2000 (drawState 5) (by norm_num)⟩ ?_
  refine .cons ⟨rfl, randint_val_bound rng 1 100 (drawState 6) (by norm_num)⟩ ?_
  refine .cons ⟨rfl, randint_val_bound rng 1 50 (drawState 7) (by norm_num)⟩ ?_
  refine .cons ⟨rfl, randint_val_bound rng 50 50000 (drawState 8) (by norm_num)⟩ ?_
  refine .cons ⟨rfl, randint_val_bound rng 1 1000 (drawState 9) (by norm_num)⟩ ?_
  refine .cons ⟨rfl, randint_val_bound rng 1 3000 (drawState 10) (by norm_num)⟩ ?_
  refine .cons ⟨rfl, randint_val_bound rng 5 8000 (drawState 11) (by norm_num)⟩ ?_
  refine .cons ⟨rfl, randint_val_bound rng 0 2000 (drawState 12) (by norm_num)⟩ ?_
  refine .cons ⟨rfl, randint_val_bound rng 0 1000 (drawState 13) (by norm_num)⟩ ?_
  refine .cons ⟨rfl, randint_val_bound rng 0 100 (drawState 14) (by norm_num)⟩ ?_
  refine .cons ⟨rfl, randint_val_bound rng 1 50 (drawState 15) (by norm_num)⟩ ?_
  refine .cons ⟨rfl, randint_val_bound rng 1 100 (drawState 16) (by norm_num)⟩ ?_
  refine .cons ⟨rfl, randint_val_bound rng 10 1000 (drawState 17) (by norm_num)⟩ ?_
  refine .cons ⟨rfl, randint_val_bound rng 10 2000 (drawState 18) (by norm_num)⟩ ?_
  refine .cons ⟨rfl, randint_val_bound rng 0 200 (drawState 19) (by norm_num)⟩ ?_
  exact .nil

/-- C4: every one of the five generated datasets has 1000 rows, 21 columns,
and exactly the fixed column names in order. -/
theorem dataset_shape (rng : NumpyRNG) (g : RandomState) :
    (datasets rng g).map (fun p => p.2.nrows) = List.replicate 5 1000 ∧
    (datasets rng g).map (fun p => p.2.cols.length) = List.replicate 5 21 ∧
    (datasets rng g).map (fun p => p.2.cols.map Prod.fst) =
      List.replicate 5
        ["loc", "v_g", "ev_g", "iv_g", "n", "v", "d", "i", "e", "b", "t",
         "lOCode", "lOComment", "lOBlank", "lOCodeAndComment", "uniq_Op",
         "uniq_Opnd", "total_Op", "total_Opnd", "branchCount", "defects"] :=
  ⟨rfl, rfl, rfl⟩

/-- C5: the label column of a generated frame contains only 0 or 1. -/
theorem defects_binary (rng : NumpyRNG) (g : RandomState) (r : Fin n_samples) :
    getCol (create_sample_data rng g).1 "defects" r = 0 ∨
    getCol (create_sample_data rng g).1 "defects" r = 1 := by
  rw [getCol_defects rng g]
  unfold defects_col binomial1
  dsimp only
  split
  · exact Or.inr rfl
  · exact Or.inl rfl

/-- C6: the metadata `files` array has exactly five entries, one per dataset
in order, each with 1000 rows, 21 columns, and a defect-rate string that is
the two-decimal percentage rendering of the mean of that dataset's label
column. -/
theorem metadata_files_fields (rng : NumpyRNG) (g : RandomState) :
    (metadata_info rng g).files.length = 5 ∧
    (metadata_info rng g).files.map FileInfo.filename =
      ["kc1.csv", "kc2.csv", "pc1.csv", "pc2.csv", "cm1.csv"] ∧
    (metadata_info rng g).files.map FileInfo.rows = List.replicate 5 1000 ∧
    (metadata_info rng g).files.map FileInfo.columns = List.replicate 5 21 ∧
    (metadata_info rng g).files.map FileInfo.defect_rate =
      (datasets rng g).map (fun p => format_pct2 (colMean p.2 "defects")) :=
  ⟨rfl, rfl, rfl, rfl, rfl⟩

/-- C7: every per-column missing-value count of every metadata entry is 0:
each of the five entries records 21 zero counts. -/
theorem metadata_missing_zero (rng : NumpyRNG) (g : RandomState) :
    (metadata_info rng g).files.map (fun fi => fi.missing_values.map Prod.snd) =
      List.replicate 5 (List.replicate 21 0) := by
  show ((datasets rng g).map (fun p => mkFileInfo p.1 p.2)).map
      (fun fi => fi.missing_values.map Prod.snd) = _
  rw [List.map_map]
  have hone : ∀ p : String × DataFrame,
      ((fun fi => fi.missing_values.map Prod.snd) ∘
        fun p : String × DataFrame => mkFileInfo p.1 p.2) p =
      List.replicate p.2.cols.length 0 := fun p => mkFileInfo_missing_map p.1 p.2
  unfold datasets
  dsimp only
  rw [List.map_cons, List.map_cons, List.map_cons, List.map_cons,
    List.map_cons, List.map_nil, hone, hone, hone, hone, hone]
  rfl

set_option maxRecDepth 4000 in
/-- C8: the summary reports five datasets, a total of 5000 rows, and an
average defect rate that is the unweighted mean (sum over five) of the five
per-dataset label means. -/
theorem summary_stats (rng : NumpyRNG) (g : RandomState) :
    (datasets rng g).length = 5 ∧
    total_samples rng g = 5000 ∧
    avg_defect_rate rng g =
      (((datasets rng g).map (fun p => colMean p.2 "defects")).sum) / 5 := by
  refine ⟨rfl, ?_, ?_⟩
  · unfold total_samples datasets
    dsimp only
    simp [create_nrows]
  · unfold avg_defect_rate
    rw [List.length_map, datasets_length]
    norm_num

/-- C9: the defect probability the generator computes for a row strictly
increases in each of the four contributing features when the other three
are held fixed — one conjunct per feature v_g, ev_g, d, loc. -/
theorem defect_prob_strict_increasing (rng rng' : NumpyRNG)
    (r r' : Fin n_samples) :
    (v_g_col rng r < v_g_col rng' r' → ev_g_col rng r = ev_g_col rng' r' →
      d_col rng r = d_col rng' r' → loc_col rng r = loc_col rng' r' →
      defect_prob_at rng r < defect_prob_at rng' r') ∧
    (ev_g_col rng r < ev_g_col rng' r' → v_g_col rng r = v_g_col rng' r' →
      d_col rng r = d_col rng' r' → loc_col rng r = loc_col rng' r' →
      defect_prob_at rng r < defect_prob_at rng' r') ∧
    (d_col rng r < d_col rng' r' → v_g_col rng r = v_g_col rng' r' →
      ev_g_col rng r = ev_g_col rng' r' → loc_col rng r = loc_col rng' r' →
      defect_prob_at rng r < defect_prob_at rng' r') ∧
    (loc_col rng r < loc_col rng' r' → v_g_col rng r = v_g_col rng' r' →
      ev_g_col rng r = ev_g_col rng' r' → d_col rng r = d_col rng' r' →
      defect_prob_at rng r < defect_prob_at rng' r') := by
  refine ⟨fun hlt h1 h2 h3 => ?_, fun hlt h1 h2 h3 => ?_,
    fun hlt h1 h2 h3 => ?_, fun hlt h1 h2 h3 => ?_⟩ <;> unfold defect_prob_at
  · exact defect_prob_lt_defect_prob (complexity_score_strict _ _ _ _ _ _ _ _
      hlt.le h1.le h2.le h3.le (Or.inl hlt))
  · exact defect_prob_lt_defect_prob (complexity_score_strict _ _ _ _ _ _ _ _
      h1.le hlt.le h2.le h3.le (Or.inr (Or.inl hlt)))
  · exact defect_prob_lt_defect_prob (complexity_score_strict _ _ _ _ _ _ _ _
      h1.le h2.le hlt.le h3.le (Or.inr (Or.inr (Or.inl hlt))))
  · exact defect_prob_lt_defect_prob (complexity_score_strict _ _ _ _ _ _ _ _
      h1.le h2.le h3.le hlt.le (Or.inr (Or.inr (Or.inr hlt))))

/-- Instantiation of C9's theorem at a concrete input: against the all-zero
stream, raising only the raw draws that feed `v_g` strictly raises the
defect probability of row 0. -/
theorem defect_prob_strict_increasing_inst :
    defect_prob_at rngZero row0 < defect_prob_at rngAltVg row0 :=
  (defect_prob_strict_increasing rngZero rngAltVg row0 row0).1 (by decide)
    (by decide) (by decide) (by decide)

/-- C10: the defect probability of a row is a function of that row's v_g,
ev_g, d and loc values only — any two generated rows agreeing on those four
features get the same probability, whatever the sixteen other features or
the random stream do. -/
theorem defect_prob_only_four (rng rng' : NumpyRNG) (r r' : Fin n_samples)
    (h1 : v_g_col rng r = v_g_col rng' r')
    (h2 : ev_g_col rng r = ev_g_col rng' r')
    (h3 : d_col rng r = d_col rng' r')
    (h4 : loc_col rng r = loc_col rng' r') :
    defect_prob_at rng r = defect_prob_at rng' r' := by
  unfold defect_prob_at
  rw [h1, h2, h3, h4]

/-- Instantiation of C10's theorem at a concrete input: changing only the
raw draws that feed `iv_g` leaves row 0's defect probability unchanged. -/
theorem defect_prob_only_four_inst :
    defect_prob_at rngZero row0 = defect_prob_at rngAltIv row0 :=
  defect_prob_only_four rngZero rngAltIv row0 row0 (by decide) (by decide)
    (by decide) (by decide)

end Demo
